/-
Verification of the moltbot PPTX parser and CRM sync scripts.

The development shallowly embeds the two source files
  src/skills/pptx/scripts/pptx_parser.py
  src/skills/pptx/scripts/sync_to_twenty.py
into Lean.  Regular-expression matching is embedded by a small
backtracking matcher that mirrors Python `re` semantics (leftmost
search position wins; greedy quantifiers try longest first, lazy
quantifiers shortest first; alternation tries branches left to right)
for exactly the constructs used by the source patterns.
-/
import Mathlib

namespace Moltbot

/-! ## String helpers mirroring Python primitives (ASCII inputs) -/

/-- Python whitespace characters (`str.strip`, regex class). -/
def chSpace (c : Char) : Bool :=
  c.toNat = 32 || c.toNat = 9 || c.toNat = 10 || c.toNat = 13 || c.toNat = 11 || c.toNat = 12

def chNonSpace (c : Char) : Bool := ! chSpace c

def chUpper (c : Char) : Bool := 65 ≤ c.toNat && c.toNat ≤ 90

def chLower (c : Char) : Bool := 97 ≤ c.toNat && c.toNat ≤ 122

def chAlpha (c : Char) : Bool := chUpper c || chLower c

def chDigit (c : Char) : Bool := 48 ≤ c.toNat && c.toNat ≤ 57

/-- Regex `\w` (ASCII part). -/
def chWord (c : Char) : Bool := chAlpha c || chDigit c || c = '_'

/-- ASCII lower-casing of one character, as Python `str.lower` acts on ASCII. -/
def chToLower (c : Char) : Char :=
  if chUpper c then Char.ofNat (c.toNat + 32) else c

/-- Python `str.lower()` (ASCII inputs). -/
def pyLower (s : String) : String := String.mk (s.data.map chToLower)

/-- Python `str.strip()`. -/
def pyStrip (s : String) : String :=
  String.mk (((s.data.dropWhile chSpace).reverse.dropWhile chSpace).reverse)

/-- Python `str.replace(" ", "")`. -/
def stripSpaces (s : String) : String :=
  String.mk (s.data.filter (fun c => !(c = ' ')))

def strContainsAux (sub : List Char) : List Char → Bool
  | [] => sub.isEmpty
  | c :: t => sub.isPrefixOf (c :: t) || strContainsAux sub t

/-- Python substring test `sub in s`. -/
def strContains (s sub : String) : Bool := strContainsAux sub.data s.data

/-! ## A small backtracking regex matcher

`Tok` is one token of a pattern; a pattern is a `List Tok`.  The
matcher returns the list of (remaining input, captures) pairs in
backtracking priority order, so the head of the list is the result
Python `re` would produce. -/

inductive Tok where
  | cls (p : Char → Bool)
  | lit (s : List Char)
  | star (p : Char → Bool)
  | plus (p : Char → Bool)
  | lazyPlus (p : Char → Bool)
  | rep (p : Char → Bool) (lo hi : Nat)
  | opt (sub : List Tok)
  | alt2 (a b : List Tok)
  | grp (idx : Nat) (sub : List Tok)
  | look (sub : List Tok)
  | eos

/-- One recorded capture: (group index, start position, length). -/
abbrev Caps := List (Nat × Nat × Nat)

/-- Length of the maximal prefix of `s` whose characters satisfy `p`. -/
def runLen (p : Char → Bool) : List Char → Nat
  | [] => 0
  | c :: rest => if p c then runLen p rest + 1 else 0

/-- `[hi, hi-1, ..., lo]` (empty when `hi < lo`). -/
def countdown (lo hi : Nat) : List Nat :=
  (List.range' lo (hi + 1 - lo)).reverse

/- The matcher works on positions into the fixed input `inp`; a token
match returns the possible (end position, captures) pairs in
backtracking priority order. -/
mutual

def mTok (inp : List Char) (t : Tok) (i : Nat) (caps : Caps) : List (Nat × Caps) :=
  match t with
  | .cls p =>
    match inp.drop i with
    | c :: _ => if p c then [(i + 1, caps)] else []
    | [] => []
  | .lit l => if l.isPrefixOf (inp.drop i) then [(i + l.length, caps)] else []
  | .star p => (countdown 0 (runLen p (inp.drop i))).map (fun j => (i + j, caps))
  | .plus p => (countdown 1 (runLen p (inp.drop i))).map (fun j => (i + j, caps))
  | .lazyPlus p => (List.range' 1 (runLen p (inp.drop i))).map (fun j => (i + j, caps))
  | .rep p lo hi => (countdown lo (min (runLen p (inp.drop i)) hi)).map (fun j => (i + j, caps))
  | .opt sub => mSeq inp sub i caps ++ [(i, caps)]
  | .alt2 a b => mSeq inp a i caps ++ mSeq inp b i caps
  | .grp idx sub => (mSeq inp sub i caps).map (fun pr => (pr.1, (idx, i, pr.1 - i) :: pr.2))
  | .look sub => if (mSeq inp sub i caps).isEmpty then [] else [(i, caps)]
  | .eos => if (inp.drop i).isEmpty then [(i, caps)] else []
termination_by structural t

def mSeq (inp : List Char) (toks : List Tok) (i : Nat) (caps : Caps) : List (Nat × Caps) :=
  match toks with
  | [] => [(i, caps)]
  | t :: ts =>
    (mTok inp t i caps).flatMap (fun pr =>
      match pr.1 with
      | 0 => mSeq inp ts 0 pr.2
      | n + 1 => mSeq inp ts (n + 1) pr.2)
termination_by structural toks

end

/-- `re.search` scan from position `st`: try each start position left to
right (`fuel` bounds the number of further positions tried, so a call
with `fuel = inp.length - st` tries every position up to the end);
returns (match start, match end, captures). -/
def reSearchFrom (inp : List Char) (toks : List Tok) : Nat → Nat → Option (Nat × Nat × Caps)
  | fuel, st =>
    match mSeq inp toks st [] with
    | (e, caps) :: _ => some (st, e, caps)
    | [] =>
      match fuel with
      | 0 => none
      | f + 1 =>
        match st + 1 with
        | 0 => reSearchFrom inp toks f 0
        | m + 1 => reSearchFrom inp toks f (m + 1)

/-- A match result: the whole match (`group(0)`) and the captures. -/
structure MRes where
  g0 : String
  caps : List (Nat × String)
deriving Repr, DecidableEq

def mkMRes (inp : List Char) (x : Nat × Nat × Caps) : MRes :=
  { g0 := String.mk ((inp.drop x.1).take (x.2.1 - x.1)),
    caps := x.2.2.map (fun t => (t.1, String.mk ((inp.drop t.2.1).take t.2.2))) }

/-- Python `re.search(pattern, s)`. -/
def reSearch (toks : List Tok) (s : String) : Option MRes :=
  (reSearchFrom s.data toks s.length 0).map (mkMRes s.data)

def group1 (m : MRes) : String := ((m.caps.lookup 1).getD "")

def group2 (m : MRes) : String := ((m.caps.lookup 2).getD "")

/-- Python `re.findall` scan: after each match continue from its end
(one position further when the match was empty). -/
def reFindAllAux (inp : List Char) (toks : List Tok) : Nat → Nat → List MRes
  | 0, _ => []
  | fuel + 1, pos =>
    if inp.length < pos then []
    else
      match reSearchFrom inp toks (inp.length - pos) pos with
      | none => []
      | some (st, e, caps) =>
        let m := mkMRes inp (st, e, caps)
        match e with
        | 0 => if 0 = st then m :: reFindAllAux inp toks fuel 1 else m :: reFindAllAux inp toks fuel 0
        | n + 1 =>
          if n + 1 = st then m :: reFindAllAux inp toks fuel (n + 2)
          else m :: reFindAllAux inp toks fuel (n + 1)

def reFindAll (toks : List Tok) (s : String) : List MRes :=
  reFindAllAux s.data toks (s.length + 1) 0

/-- `re.findall` with one capture group: list of `group(1)` strings. -/
def reFindAll1 (toks : List Tok) (s : String) : List String :=
  (reFindAll toks s).map group1

/-- `re.findall` with two capture groups: list of `(group(1), group(2))`. -/
def reFindAll2 (toks : List Tok) (s : String) : List (String × String) :=
  (reFindAll toks s).map (fun m => (group1 m, group2 m))

def litS (s : String) : Tok := .lit s.data

/-- Right-nested alternation `a|b1|b2|...` preserving priority order. -/
def altN (a : List Tok) : List (List Tok) → Tok
  | [] => Tok.alt2 a a
  | b :: rest => Tok.alt2 a [altN b rest]

/-! ## The patterns of pptx_parser.py -/

def chCommaSpace (c : Char) : Bool := c = ',' || chSpace c

def chColonSpace (c : Char) : Bool := c = ':' || chSpace c

def chNameBody (c : Char) : Bool := chAlpha c || chSpace c || c = '-'

def chAlphaSpace (c : Char) : Bool := chAlpha c || chSpace c

def chDigitComma (c : Char) : Bool := chDigit c || c = ','

def chPhase (c : Char) : Bool := chDigit c || c = 'A' || c = 'B'

def chNotDot (c : Char) : Bool := !(c = '.')

def chNotComma (c : Char) : Bool := !(c = ',')

/-- pptx_parser.py line 176: organization-name pattern
`(?:Reference\s*Guide[:\s]*)?([A-Z][A-Za-z\s\-]+(?:Village|Community|Center|Home|Living))`. -/
def nameRe : List Tok :=
  [.opt [litS "Reference", .star chSpace, litS "Guide", .star chColonSpace],
   .grp 1 [.cls chUpper, .plus chNameBody,
           altN [litS "Village"] [[litS "Community"], [litS "Center"], [litS "Home"], [litS "Living"]]]]

/-- pptx_parser.py line 182: email pattern `(\S+@\S+\.\S+)`. -/
def emailRe : List Tok :=
  [.grp 1 [.plus chNonSpace, litS "@", .plus chNonSpace, litS ".", .plus chNonSpace]]

/-- pptx_parser.py line 185: name-before-email pattern
`([A-Z][a-z]+\s+[A-Z][a-z]+)[,\s]+(?:\w+\s+)?{re.escape(email)}`. -/
def nameBeforeRe (email : String) : List Tok :=
  [.grp 1 [.cls chUpper, .plus chLower, .plus chSpace, .cls chUpper, .plus chLower],
   .plus chCommaSpace, .opt [.plus chWord, .plus chSpace], litS email]

/-- pptx_parser.py line 190: title-before-email pattern
`([A-Z][A-Z]+|CEO|CFO|COO|President|Director)[,\s]+{re.escape(email)}`. -/
def titleBeforeRe (email : String) : List Tok :=
  [.grp 1 [altN [.cls chUpper, .plus chUpper]
             [[litS "CEO"], [litS "CFO"], [litS "COO"], [litS "President"], [litS "Director"]]],
   .plus chCommaSpace, litS email]

/-- pptx_parser.py line 199: team-roster pattern
`([A-Z][a-z]+)(?:\s*[&]\s*[A-Z][a-z]+)?:\s*([A-Za-z\s]+?)(?=\n|[A-Z][a-z]+:|$)`. -/
def teamRe : List Tok :=
  [.grp 1 [.cls chUpper, .plus chLower],
   .opt [.star chSpace, litS "&", .star chSpace, .cls chUpper, .plus chLower],
   litS ":", .star chSpace,
   .grp 2 [.lazyPlus chAlphaSpace],
   .look [altN [litS "\n"] [[.cls chUpper, .plus chLower, litS ":"], [Tok.eos]]]]

/-- pptx_parser.py line 212: fee pattern `\$[\d,]+`. -/
def feeRe : List Tok := [litS "$", .plus chDigitComma]

/-- pptx_parser.py line 216: phase pattern `Phase\s*[\dAB]+[^.]*`. -/
def phaseRe : List Tok := [litS "Phase", .star chSpace, .plus chPhase, .star chNotDot]

/-- pptx_parser.py line 237: date pattern
`((?:Jan|Feb|Mar|Apr|May|Jun|Jul|Aug|Sep|Oct|Nov|Dec)[a-z]*\.?\s+\d{1,2},?\s+\d{4})`. -/
def dateRe : List Tok :=
  [.grp 1 [altN [litS "Jan"]
             [[litS "Feb"], [litS "Mar"], [litS "Apr"], [litS "May"], [litS "Jun"],
              [litS "Jul"], [litS "Aug"], [litS "Sep"], [litS "Oct"], [litS "Nov"], [litS "Dec"]],
           .star chLower, .opt [litS "."], .plus chSpace, .rep chDigit 1 2,
           .opt [litS ","], .plus chSpace, .rep chDigit 4 4]]

/-- pptx_parser.py line 249: address pattern
`(\d+\s+[A-Za-z\s]+(?:Rd|Road|St|Street|Ave|Avenue|Dr|Drive|Ln|Lane|Way|Blvd)[^,]*,\s*[A-Za-z\s]+,\s*[A-Z]{2}\s+\d{5})`. -/
def addrRe : List Tok :=
  [.grp 1 [.plus chDigit, .plus chSpace, .plus chAlphaSpace,
           altN [litS "Rd"]
             [[litS "Road"], [litS "St"], [litS "Street"], [litS "Ave"], [litS "Avenue"],
              [litS "Dr"], [litS "Drive"], [litS "Ln"], [litS "Lane"], [litS "Way"], [litS "Blvd"]],
           .star chNotComma, litS ",", .star chSpace, .plus chAlphaSpace,
           litS ",", .star chSpace, .rep chUpper 2 2, .plus chSpace, .rep chDigit 5 5]]

/-! ## Data model (pptx_parser.py)

`Slide` is one record produced by `extract_slide` (number, title,
content blocks, tables, notes); `Community` is the aggregate dict
built by `parse_community_data` (lines 138-162). -/

structure Slide where
  number : Nat
  title : String
  content : List String
  tables : List (List (List String))
  notes : String
deriving Repr, DecidableEq

structure Contact where
  email : String
  name : Option String
  title : Option String
deriving Repr, DecidableEq

structure TeamMember where
  name : String
  role : String
deriving Repr, DecidableEq

structure Engagement where
  phase : String
  start_date : String
  fee : String
  timeline : List String
deriving Repr, DecidableEq

structure MarketAnalysis where
  pma_description : String
  demographics : List String
  demand_summary : List String
deriving Repr, DecidableEq

structure Development where
  objectives : List String
  vulnerabilities : List String
  opportunities : List String
deriving Repr, DecidableEq

structure PresentationEntry where
  date : String
  slide : Nat
deriving Repr, DecidableEq

structure Community where
  name : String
  address : String
  contacts : List Contact
  one_point_team : List TeamMember
  goals : List String
  engagement : Engagement
  market_analysis : MarketAnalysis
  development : Development
  presentations : List PresentationEntry
  next_steps : List String
deriving Repr, DecidableEq

/-- The initial `community` dict, pptx_parser.py lines 138-162. -/
def initCommunity : Community :=
  { name := "", address := "", contacts := [], one_point_team := [], goals := [],
    engagement := { phase := "", start_date := "", fee := "", timeline := [] },
    market_analysis := { pma_description := "", demographics := [], demand_summary := [] },
    development := { objectives := [], vulnerabilities := [], opportunities := [] },
    presentations := [], next_steps := [] }

/-! ## The extraction rules of parse_community_data, one per rule -/

/-- Lines 174-179: community name, only on slide number 1; searched in
`title + " " + content_text`, first match wins, `group(1).strip()`. -/
def ruleName (s : Slide) (c : Community) : Community :=
  if s.number = 1 then
    match reSearch nameRe (s.title ++ " " ++ String.intercalate " " s.content) with
    | some m => { c with name := pyStrip (group1 m) }
    | none => c
  else c

/-- Lines 183-192: one contact record assembled for one found email. -/
def mkContact (content_text email : String) : Contact :=
  { email := email,
    name := (reSearch (nameBeforeRe email) content_text).map group1,
    title := (reSearch (titleBeforeRe email) content_text).map group1 }

/-- Lines 193-194: append only when no structurally identical record exists. -/
def addContact (cs : List Contact) (c : Contact) : List Contact :=
  if cs.contains c then cs else cs ++ [c]

/-- Lines 181-194: contact extraction over all emails found in the content. -/
def ruleContacts (s : Slide) (c : Community) : Community :=
  let content_text := String.intercalate " " s.content
  let emails := reFindAll1 emailRe content_text
  { c with contacts := emails.foldl (fun cs e => addContact cs (mkContact content_text e)) c.contacts }

/-- Lines 196-201: One Point team roster. -/
def ruleTeam (s : Slide) (c : Community) : Community :=
  let title := pyLower s.title
  if strContains (pyLower (stripSpaces title)) "onepoint" || strContains title "team" then
    let roles := reFindAll2 teamRe (String.intercalate " " s.content)
    let entries := roles.map (fun nr => ({ name := pyStrip nr.1, role := pyStrip nr.2 } : TeamMember))
    { c with one_point_team := c.one_point_team ++ entries }
  else c

/-- Lines 203-207: goals (content blocks longer than 10 characters). -/
def ruleGoals (s : Slide) (c : Community) : Community :=
  if strContains (pyLower s.title) "goal" then
    { c with goals := c.goals ++ s.content.filter (fun item => 10 < item.length) }
  else c

/-- Lines 209-218: engagement fee and phase (overwrite on match). -/
def ruleEngagement (s : Slide) (c : Community) : Community :=
  let title := pyLower s.title
  if strContains title "engagement" || strContains title "phase" then
    let content_text := String.intercalate " " s.content
    let c1 :=
      match reSearch feeRe content_text with
      | some m => { c with engagement := { c.engagement with fee := m.g0 } }
      | none => c
    match reSearch phaseRe content_text with
    | some m => { c1 with engagement := { c1.engagement with phase := m.g0 } }
    | none => c1
  else c

/-- Lines 220-224: market / demand summary (blocks longer than 20 characters). -/
def ruleMarket (s : Slide) (c : Community) : Community :=
  let title := pyLower s.title
  if strContains title "market" || strContains title "demand" then
    { c with market_analysis :=
        { c.market_analysis with demand_summary :=
            c.market_analysis.demand_summary ++ s.content.filter (fun item => 20 < item.length) } }
  else c

/-- Lines 229-234: classification of one content block into exactly one
development bucket. -/
def devClassify (comm : Community) (item : String) : Community :=
  if strContains (pyLower item) "vulnerabilit" then
    { comm with development :=
        { comm.development with vulnerabilities := comm.development.vulnerabilities ++ [item] } }
  else if strContains (pyLower item) "opportunit" then
    { comm with development :=
        { comm.development with opportunities := comm.development.opportunities ++ [item] } }
  else if 15 < item.length then
    { comm with development :=
        { comm.development with objectives := comm.development.objectives ++ [item] } }
  else comm

/-- Lines 226-234: development objectives / vulnerabilities / opportunities. -/
def ruleDevelopment (s : Slide) (c : Community) : Community :=
  let title := pyLower s.title
  if strContains title "development" || strContains title "objective" || strContains title "site" then
    s.content.foldl devClassify c
  else c

/-- Lines 236-240: presentation dates, deduplicated by date string. -/
def addDate (n : Nat) (ps : List PresentationEntry) (date : String) : List PresentationEntry :=
  if (ps.map (fun p => p.date)).contains date then ps
  else ps ++ [{ date := date, slide := n }]

def ruleDates (s : Slide) (c : Community) : Community :=
  let dates := reFindAll1 dateRe (String.intercalate " " s.content)
  { c with presentations := dates.foldl (addDate s.number) c.presentations }

/-- Lines 242-246: next steps (blocks longer than 10 characters). -/
def ruleNextSteps (s : Slide) (c : Community) : Community :=
  if strContains (pyLower s.title) "next step" then
    { c with next_steps := c.next_steps ++ s.content.filter (fun item => 10 < item.length) }
  else c

/-- One iteration of the slide loop (lines 165-246): the nine rules in
source order, plus the `all_text` accumulation of line 166-167. -/
def processSlide (st : Community × String) (s : Slide) : Community × String :=
  (ruleNextSteps s (ruleDates s (ruleDevelopment s (ruleMarket s
     (ruleEngagement s (ruleGoals s (ruleTeam s (ruleContacts s (ruleName s st.1)))))))),
   st.2 ++ s.title ++ " " ++ String.intercalate " " s.content ++ "\n")

/-- pptx_parser.py lines 133-253: `parse_community_data` over the slides of
the extracted document (the only part of the input dict it reads). -/
def parse_community_data (slides : List Slide) : Community :=
  let st := slides.foldl processSlide (initCommunity, "")
  match reSearch addrRe st.2 with
  | some m => { st.1 with address := group1 m }
  | none => st.1

/-- The four fields of the aggregate that no extraction rule writes. -/
def quietFields (c : Community) : String × List String × String × List String :=
  (c.engagement.start_date, c.engagement.timeline,
   c.market_analysis.pma_description, c.market_analysis.demographics)

/-! ## Slide-range parsing and selection (extract_presentation)

pptx_parser.py lines 98-106 build `selected_slides` from the range
string; lines 121-124 keep slide `i` unless `selected_slides` is
truthy (non-empty) and `i` is not a member.  `none` models the Python
exception raised by `int()` on a malformed part or by unpacking a
split with more than two pieces. -/

/-- Python `int(s)` restricted to optional sign plus decimal digits
(the inputs of the slide-range grammar); `none` models `ValueError`. -/
def pyInt (s : String) : Option Int :=
  let t := (pyStrip s).data
  let signed : Int × List Char :=
    match t with
    | '-' :: rest => (-1, rest)
    | '+' :: rest => (1, rest)
    | l => (1, l)
  if signed.2.isEmpty || !(signed.2.all chDigit) then none
  else some (signed.1 * (signed.2.foldl (fun acc c => 10 * acc + (c.toNat - 48)) (0 : Nat) : Nat))

/-- Python `range(a, b)` as a list of integers. -/
def pyRange (a b : Int) : List Int :=
  (List.range (b - a).toNat).map (fun k => a + (k : Int))

/-- Lines 100-106: resolve the range string to the `selected_slides`
collection (set membership is all that is used of it). -/
def parseSlideRange (s : String) : Option (List Int) :=
  ((s.data.splitOn ',').map String.mk).foldlM
    (fun acc part =>
      if strContains part "-" then
        match (part.data.splitOn '-').map String.mk with
        | [a, b] => do
          let x ← pyInt a
          let y ← pyInt b
          pure (acc ++ pyRange x (y + 1))
        | _ => none
      else (pyInt part).map (fun x => acc ++ [x]))
    []

/-- Line 122: slide `i` of `1..n` is kept unless `selected_slides` is
truthy (non-empty) and `i` is not a member. -/
def keepFilter (sel : List Int) (n : Nat) : List Nat :=
  (List.range' 1 n).filter (fun i => sel.isEmpty || sel.contains (Int.ofNat i))

/-- Lines 98-106 and 121-124 of `extract_presentation`, abstracted over
the document: which slide numbers of a `slide_count`-slide document are
extracted.  An empty resolved set is falsy in Python, so it disables
filtering; `none` models an uncaught exception while parsing the range. -/
def extract_presentation_selection (slide_range : Option String) (slide_count : Nat) :
    Option (List Nat) :=
  match slide_range with
  | none => some (List.range' 1 slide_count)
  | some s =>
    if s = "" then some (List.range' 1 slide_count)
    else
      match parseSlideRange s with
      | none => none
      | some sel => some (keepFilter sel slide_count)

/-! ## Sync orchestrator (sync_to_twenty.py)

The CRM client is the external collaborator: it is modelled as an
oracle of pure functions, one per API method of the `TwentyCRM` class,
each returning `Except` (`.error` models a raised exception).  The
orchestrator is instrumented with a trace of the calls it issues; an
uncaught exception makes the run result `none` (the Python function
propagates the exception and returns nothing). -/

structure CompanyRec where
  id : Option String
deriving Repr, DecidableEq

structure PersonRec where
  id : Option String
deriving Repr, DecidableEq

/-- The `company_data` dict of lines 121-125. -/
structure CompanyPayload where
  name : String
  address : String
  domainName : String
deriving Repr, DecidableEq

/-- The `person_data` dict of lines 154-159. -/
structure PersonPayload where
  email : String
  name : String
  jobTitle : String
  companyId : String
deriving Repr, DecidableEq

structure CRM where
  search_companies : String → Except String (List CompanyRec)
  update_company : Option String → CompanyPayload → Except String CompanyRec
  create_company : CompanyPayload → Except String CompanyRec
  search_people : String → Except String (List PersonRec)
  create_person : PersonPayload → Except String PersonRec
  create_note : String → Option String → Option String → Except String Unit

/-- One external CRM call, as recorded in the trace. -/
inductive Call where
  | search_companies (name : String)
  | update_company (id : Option String) (data : CompanyPayload)
  | create_company (data : CompanyPayload)
  | search_people (email : String)
  | create_person (data : PersonPayload)
  | create_note (body : String) (targetId : Option String) (targetType : Option String)
deriving Repr, DecidableEq

/-- The `results` dict of lines 102-108; `company` holds `(id, action)`,
contacts entries hold `(email, name)`. -/
structure SyncResults where
  company : Option (Option String × String)
  contacts_created : List (String × String)
  contacts_updated : List (String × String)
  notes_created : List String
  errors : List String
deriving Repr, DecidableEq

def emptyResults : SyncResults :=
  { company := none, contacts_created := [], contacts_updated := [],
    notes_created := [], errors := [] }

/-- Python truthiness test `not company_id` for `None` or a string. -/
def pyFalsyOptStr : Option String → Bool
  | none => true
  | some s => s = ""

/-- Lines 121-125: the company payload built from the community data. -/
def companyPayloadOf (cd : Community) : CompanyPayload :=
  { name := cd.name, address := cd.address, domainName := "" }

/-- The `person_data` dict (lines 154-159) built for one contact. -/
def personPayloadOf (cid : String) (c : Contact) : PersonPayload :=
  { email := c.email, name := c.name.getD "", jobTitle := c.title.getD "", companyId := cid }

/-- Lines 142-170: the contacts loop.  Returns
(contacts_updated, contacts_created, errors, trace, ok); `ok = false`
means `search_people` raised (the only call there outside a `try`),
which aborts the whole sync. -/
def contactsLoop (crm : CRM) (cid : String) : List Contact →
    List (String × String) × List (String × String) × List String × List Call × Bool
  | [] => ([], [], [], [], true)
  | c :: rest =>
    if c.email = "" then contactsLoop crm cid rest
    else
      match crm.search_people c.email with
      | .error _ => ([], [], [], [Call.search_people c.email], false)
      | .ok existing =>
        let pd := personPayloadOf cid c
        if !existing.isEmpty then
          let r := contactsLoop crm cid rest
          ((c.email, c.name.getD "") :: r.1, r.2.1, r.2.2.1, Call.search_people c.email :: r.2.2.2.1, r.2.2.2.2)
        else
          match crm.create_person pd with
          | .ok _ =>
            let r := contactsLoop crm cid rest
            (r.1, (c.email, c.name.getD "") :: r.2.1, r.2.2.1,
             Call.search_people c.email :: Call.create_person pd :: r.2.2.2.1, r.2.2.2.2)
          | .error e =>
            let r := contactsLoop crm cid rest
            (r.1, r.2.1, ("Failed to create " ++ c.email ++ ": " ++ e) :: r.2.2.1,
             Call.search_people c.email :: Call.create_person pd :: r.2.2.2.1, r.2.2.2.2)

/-- Lines 172-221: the (title, body) pairs of the notes to create. -/
def notesToCreate (cd : Community) : List (String × String) :=
  (if !cd.one_point_team.isEmpty then
    [("One Point Team",
      String.intercalate "\n"
        ("## One Point Team\n" ::
          cd.one_point_team.map (fun m => "- **" ++ m.name ++ "**: " ++ m.role)))]
   else []) ++
  (if !cd.goals.isEmpty then
    [("Client Goals", "## Client Goals\n\n" ++ String.intercalate "\n\n" cd.goals)]
   else []) ++
  (if !cd.market_analysis.demand_summary.isEmpty then
    [("Market Analysis Summary",
      "## Market Analysis\n\n" ++
        String.intercalate "\n\n---\n\n" (cd.market_analysis.demand_summary.take 5))]
   else []) ++
  (let devParts :=
    (if !cd.development.vulnerabilities.isEmpty then
      ["### Vulnerabilities\n" ++ String.intercalate "\n" (cd.development.vulnerabilities.take 2)]
     else []) ++
    (if !cd.development.opportunities.isEmpty then
      ["### Opportunities\n" ++ String.intercalate "\n" (cd.development.opportunities.take 2)]
     else []) ++
    (if !cd.development.objectives.isEmpty then
      ["### Objectives\n" ++ String.intercalate "\n" (cd.development.objectives.take 2)]
     else [])
   if !devParts.isEmpty then
    [("Development Analysis", "## Development Analysis\n\n" ++ String.intercalate "\n\n" devParts)]
   else []) ++
  (if !cd.presentations.isEmpty then
    [("Presentations Log",
      String.intercalate "\n"
        ("## Presentations Log\n" ::
          cd.presentations.map
            (fun p => "- " ++ p.date ++ " (Slide " ++ toString p.slide ++ ")")))]
   else []) ++
  (if !cd.next_steps.isEmpty then
    [("Next Steps", "## Next Steps\n\n" ++ String.intercalate "\n\n" cd.next_steps)]
   else [])

/-- Line 225: the full note body with the timestamp footer (`now` is the
formatted `datetime.now()` string). -/
def noteBody (communityName now title body : String) : String :=
  "# " ++ communityName ++ ": " ++ title ++ "\n\n" ++ body ++
    "\n\n---\n*Auto-imported from PPTX on " ++ now ++ "*"

/-- Lines 223-231: the note-creation loop.  Returns
(notes_created, errors, trace); every failure is caught. -/
def notesLoop (crm : CRM) (cid communityName now : String) :
    List (String × String) → List String × List String × List Call
  | [] => ([], [], [])
  | (t, b) :: rest =>
    let full := noteBody communityName now t b
    let r := notesLoop crm cid communityName now rest
    match crm.create_note full (some cid) (some "company") with
    | .ok _ => (t :: r.1, r.2.1, Call.create_note full (some cid) (some "company") :: r.2.2)
    | .error e =>
      (r.1, ("Failed to create note \x27" ++ t ++ "\x27: " ++ e) :: r.2.1,
       Call.create_note full (some cid) (some "company") :: r.2.2)

/-- Lines 138-233 after the company step: the falsy-id early return,
then contacts, then notes. -/
def afterCompany (cd : Community) (crm : CRM) (now : String) (company_id : Option String)
    (results1 : SyncResults) (t1 : List Call) : Option SyncResults × List Call :=
  if pyFalsyOptStr company_id then
    (some { results1 with errors := results1.errors ++ ["Failed to create/find company"] }, t1)
  else
    let cid := company_id.getD ""
    let r := contactsLoop crm cid cd.contacts
    if r.2.2.2.2 = false then (none, t1 ++ r.2.2.2.1)
    else
      let n := notesLoop crm cid cd.name now (notesToCreate cd)
      (some { company := results1.company,
              contacts_created := r.2.1,
              contacts_updated := r.1,
              notes_created := n.1,
              errors := results1.errors ++ r.2.2.1 ++ n.2.1 },
       t1 ++ r.2.2.2.1 ++ n.2.2)

/-- sync_to_twenty.py lines 93-233: `sync_community_to_twenty`.
Returns the results (or `none` when an uncaught CRM exception
propagates) together with the trace of external calls issued. -/
def sync_community_to_twenty (cd : Community) (crm : CRM) (dry_run : Bool) (now : String) :
    Option SyncResults × List Call :=
  if dry_run then (some emptyResults, [])
  else
    let payload := companyPayloadOf cd
    let t0 := [Call.search_companies cd.name]
    match crm.search_companies cd.name with
    | .error _ => (none, t0)
    | .ok existing =>
      match existing with
      | first :: _ =>
        let t1 := t0 ++ [Call.update_company first.id payload]
        match crm.update_company first.id payload with
        | .error _ => (none, t1)
        | .ok _ =>
          afterCompany cd crm now first.id
            { emptyResults with company := some (first.id, "updated") } t1
      | [] =>
        let t1 := t0 ++ [Call.create_company payload]
        match crm.create_company payload with
        | .error _ => (none, t1)
        | .ok comp =>
          afterCompany cd crm now comp.id
            { emptyResults with company := some (comp.id, "created") } t1

/-! ## Oracle-side helpers used to characterize the contacts loop -/

/-- Whether the person search for this contact returns a non-empty list. -/
def personFound (crm : CRM) (c : Contact) : Bool :=
  match crm.search_people c.email with
  | .ok (_ :: _) => true
  | _ => false

/-- Whether `create_person` succeeds for this contact. -/
def personCreateOk (crm : CRM) (cid : String) (c : Contact) : Bool :=
  match crm.create_person (personPayloadOf cid c) with
  | .ok _ => true
  | .error _ => false

/-- The error message recorded when `create_person` raises (line 170). -/
def personCreateErr (crm : CRM) (cid : String) (c : Contact) : Option String :=
  match crm.create_person (personPayloadOf cid c) with
  | .ok _ => none
  | .error e => some ("Failed to create " ++ c.email ++ ": " ++ e)

/-! ## Concrete documents and oracles used in witnesses and counterexamples -/

/-- The spec example slide for contact extraction. -/
def janeSlide : Slide :=
  { number := 2, title := "",
    content := ["Contact Jane Smith, Director, jane@x.com for info"], tables := [], notes := "" }

/-- The spec example slide for the organization name. -/
def oakSlide : Slide :=
  { number := 1, title := "Reference Guide: Oak Hill Village",
    content := [], tables := [], notes := "" }

/-- A slide whose number is not 1 (name-rule witness). -/
def slideTwo : Slide :=
  { number := 2, title := "Overview", content := ["Nothing here"], tables := [], notes := "" }

/-- Two slides producing the same email with different captured names. -/
def dupSlide1 : Slide :=
  { number := 1, title := "", content := ["Jane Smith, jane@x.com"], tables := [], notes := "" }

def dupSlide2 : Slide :=
  { number := 2, title := "", content := ["Mary Jones, jane@x.com"], tables := [], notes := "" }

/-- A team slide with two plain `Name: Role` segments. -/
def teamSlide : Slide :=
  { number := 1, title := "Team", content := ["Alice: Director", "Bob: Advisor"],
    tables := [], notes := "" }

/-- A team slide whose name is two capitalized words joined by `&`. -/
def ampSlide : Slide :=
  { number := 1, title := "Team", content := ["Jane & Bob: Leads"], tables := [], notes := "" }

/-- A contact value used by the deduplication witness. -/
def contactW : Contact := { email := "jane@x.com", name := some "Jane Smith", title := none }

/-- A CRM oracle whose searches always succeed: the company search finds
one company with id `c1`, the person search finds someone only for
`found@x.com`, and person creation raises only for `bad@x.com`. -/
def crmW : CRM :=
  { search_companies := fun _ => .ok [{ id := some "c1" }],
    update_company := fun _ _ => .ok { id := some "c1" },
    create_company := fun _ => .ok { id := some "c9" },
    search_people := fun e => .ok (if e = "found@x.com" then [{ id := some "p1" }] else []),
    create_person := fun pd => if pd.email = "bad@x.com" then .error "boom" else .ok { id := some "p2" },
    create_note := fun _ _ _ => .ok () }

/-- Like `crmW` but the company search finds no company. -/
def crmCreate : CRM := { crmW with search_companies := fun _ => .ok [] }

/-- Like `crmW` but the found company has an empty id (falsy). -/
def crmFalsy : CRM := { crmW with search_companies := fun _ => .ok [{ id := some "" }] }

/-- A community profile used by the sync witnesses. -/
def cdW : Community :=
  { initCommunity with
    name := "Acme Community",
    contacts := [{ email := "found@x.com", name := some "F G", title := none },
                 { email := "", name := none, title := none },
                 { email := "bad@x.com", name := some "B C", title := none },
                 { email := "new@x.com", name := some "N P", title := some "CEO" }] }

/-- The contact list of `cdW`, used by the contacts-loop witness. -/
def contactsW : List Contact := cdW.contacts

/-! # Theorems -/

/-- A projection that every fold step preserves is preserved by the fold. -/
theorem foldl_invar {α β γ : Type _} (g : α → γ) (f : α → β → α)
    (hf : ∀ a x, g (f a x) = g a) : ∀ (l : List β) (a : α), g (l.foldl f a) = g a := by
  intro l
  induction l with
  | nil => intro a; rfl
  | cons x xs ih => intro a; rw [List.foldl_cons, ih, hf]

theorem ruleName_quiet (s : Slide) (c : Community) : quietFields (ruleName s c) = quietFields c := by
  unfold ruleName
  split
  · split <;> rfl
  · rfl

theorem ruleContacts_quiet (s : Slide) (c : Community) :
    quietFields (ruleContacts s c) = quietFields c := rfl

theorem ruleTeam_quiet (s : Slide) (c : Community) : quietFields (ruleTeam s c) = quietFields c := by
  unfold ruleTeam
  dsimp only
  split <;> rfl

theorem ruleGoals_quiet (s : Slide) (c : Community) : quietFields (ruleGoals s c) = quietFields c := by
  unfold ruleGoals
  split <;> rfl

theorem ruleEngagement_quiet (s : Slide) (c : Community) :
    quietFields (ruleEngagement s c) = quietFields c := by
  unfold ruleEngagement
  dsimp only
  split
  · split <;> split <;> rfl
  · rfl

theorem ruleMarket_quiet (s : Slide) (c : Community) :
    quietFields (ruleMarket s c) = quietFields c := by
  unfold ruleMarket
  dsimp only
  split <;> rfl

theorem devClassify_quiet (c : Community) (item : String) :
    quietFields (devClassify c item) = quietFields c := by
  unfold devClassify
  split
  · rfl
  · split
    · rfl
    · split <;> rfl

theorem ruleDevelopment_quiet (s : Slide) (c : Community) :
    quietFields (ruleDevelopment s c) = quietFields c := by
  unfold ruleDevelopment
  dsimp only
  split
  · exact foldl_invar quietFields devClassify devClassify_quiet s.content c
  · rfl

theorem ruleDates_quiet (s : Slide) (c : Community) :
    quietFields (ruleDates s c) = quietFields c := rfl

theorem ruleNextSteps_quiet (s : Slide) (c : Community) :
    quietFields (ruleNextSteps s c) = quietFields c := by
  unfold ruleNextSteps
  split <;> rfl

theorem processSlide_quiet (st : Community × String) (s : Slide) :
    quietFields (processSlide st s).1 = quietFields st.1 := by
  unfold processSlide
  rw [ruleNextSteps_quiet, ruleDates_quiet, ruleDevelopment_quiet, ruleMarket_quiet,
      ruleEngagement_quiet, ruleGoals_quiet, ruleTeam_quiet, ruleContacts_quiet, ruleName_quiet]

/-- C10: for every input, the extractor leaves `engagement.start_date`,
`engagement.timeline`, `market_analysis.pma_description` and
`market_analysis.demographics` at their initial empty values — no
extraction rule ever writes these fields. -/
theorem extractor_quiet_fields (slides : List Slide) :
    (parse_community_data slides).engagement.start_date = "" ∧
    (parse_community_data slides).engagement.timeline = [] ∧
    (parse_community_data slides).market_analysis.pma_description = "" ∧
    (parse_community_data slides).market_analysis.demographics = [] := by
  have key : quietFields (parse_community_data slides) = quietFields initCommunity := by
    unfold parse_community_data
    dsimp only
    have hfold :
        quietFields (slides.foldl processSlide (initCommunity, "")).1 =
          quietFields initCommunity :=
      foldl_invar (fun st => quietFields st.1) processSlide
        (fun a x => processSlide_quiet a x) slides (initCommunity, "")
    split
    · exact hfold
    · exact hfold
  exact ⟨congrArg (fun t => t.1) key, congrArg (fun t => t.2.1) key,
         congrArg (fun t => t.2.2.1) key, congrArg (fun t => t.2.2.2) key⟩

/-- C6: the extractor is a pure function of the document profile: running
it twice on the same slide sequence yields identical results (the
embedding has no state or time input, mirroring the source, which reads
nothing besides its argument). -/
theorem extractor_deterministic (slides : List Slide) :
    parse_community_data slides = parse_community_data slides := rfl

/-- C9: a dry-run sync performs zero external calls and returns the
empty-result skeleton (no company, no contacts, no notes, no errors). -/
theorem dry_run_no_calls (cd : Community) (crm : CRM) (now : String) :
    sync_community_to_twenty cd crm true now =
      (some { company := none, contacts_created := [], contacts_updated := [],
              notes_created := [], errors := [] }, []) := rfl

/-- C2 counterexample: on the spec example block the extractor does not
capture the name, so the predicted three-field record is not produced. -/
theorem contact_extraction_counterexample :
    (parse_community_data [janeSlide]).contacts ≠
      [{ email := "jane@x.com", name := some "Jane Smith", title := some "Director" }] := by
  decide

/-- C2 (amended): for the block "Contact Jane Smith, Director,
jane@x.com for info" the extractor yields the single contact
{email: jane@x.com, title: Director} with no name captured: the comma
after "Director" stops the name-before-email pattern, whose optional
`\w+\s+` bridge cannot cross ", ". -/
theorem contact_extraction_example :
    (parse_community_data [janeSlide]).contacts =
      [{ email := "jane@x.com", name := none, title := some "Director" }] := by
  decide

/-! ## Slide-range lemmas (C1) -/

theorem keepFilter_succ_out (sel : List Int) (n : Nat)
    (h : (sel.isEmpty || sel.contains (Int.ofNat (1 + 1 * n))) = false) :
    keepFilter sel (n + 1) = keepFilter sel n := by
  unfold keepFilter
  rw [List.range'_concat, List.filter_append, List.filter_cons_of_neg]
  · simp
  · simpa using h

theorem keepFilter_1235 : ∀ m, keepFilter [1, 2, 3, 5] (5 + m) = [1, 2, 3, 5] := by
  intro m
  induction m with
  | zero => decide
  | succ k ih =>
    have h5 : 5 + (k + 1) = (5 + k) + 1 := by omega
    rw [h5, keepFilter_succ_out _ _ (by simp [List.contains, List.elem_iff]; omega), ih]

theorem keepFilter_22 : ∀ m, keepFilter [2] (5 + m) = [2] := by
  intro m
  induction m with
  | zero => decide
  | succ k ih =>
    have h5 : 5 + (k + 1) = (5 + k) + 1 := by omega
    rw [h5, keepFilter_succ_out _ _ (by simp [List.contains, List.elem_iff]; omega), ih]

theorem keepFilter_nil_sel (n : Nat) : keepFilter [] n = List.range' 1 n := by
  unfold keepFilter
  simp

/-- C1 counterexample: the reversed range "5-2" is not rejected — the
resolved set is empty, emptiness is falsy, filtering is disabled, and
extraction succeeds returning every slide (no InvalidRangeError exists
in the code). -/
theorem slide_range_reversed_counterexample :
    extract_presentation_selection (some "5-2") 5 = some [1, 2, 3, 4, 5] ∧
    extract_presentation_selection (some "5-2") 5 ≠ none := by
  decide

/-- C1 (amended): for a presentation with at least 5 slides, "1-3,5"
selects exactly slides {1,2,3,5} and "2-2" selects exactly {2}; a
reversed range such as "5-2" resolves to the empty set, which is falsy
and disables filtering, so extraction succeeds and returns all slides
rather than failing. -/
theorem slide_range_resolution (n : Nat) (h : 5 ≤ n) :
    extract_presentation_selection (some "1-3,5") n = some [1, 2, 3, 5] ∧
    extract_presentation_selection (some "2-2") n = some [2] ∧
    extract_presentation_selection (some "5-2") n = some (List.range' 1 n) := by
  obtain ⟨m, rfl⟩ : ∃ m, n = 5 + m := ⟨n - 5, by omega⟩
  refine ⟨?_, ?_, ?_⟩
  · have hp : parseSlideRange "1-3,5" = some [1, 2, 3, 5] := by decide
    simp only [extract_presentation_selection, hp]
    rw [if_neg (by decide)]
    exact congrArg some (keepFilter_1235 m)
  · have hp : parseSlideRange "2-2" = some [2] := by decide
    simp only [extract_presentation_selection, hp]
    rw [if_neg (by decide)]
    exact congrArg some (keepFilter_22 m)
  · have hp : parseSlideRange "5-2" = some [] := by decide
    simp only [extract_presentation_selection, hp]
    rw [if_neg (by decide)]
    exact congrArg some (keepFilter_nil_sel (5 + m))

/-- C1 witness: the amended statement instantiated at a 5-slide document. -/
theorem slide_range_resolution_witness :
    extract_presentation_selection (some "1-3,5") 5 = some [1, 2, 3, 5] ∧
    extract_presentation_selection (some "2-2") 5 = some [2] ∧
    extract_presentation_selection (some "5-2") 5 = some (List.range' 1 5) :=
  slide_range_resolution 5 (by decide)

/-! ## Contact deduplication (C3) -/

/-- C3: contact deduplication is by full-record equality — a freshly
assembled contact is appended exactly when no field-for-field identical
record is present, so two contacts sharing an email but differing in
name are both retained (shown end to end on a two-slide document). -/
theorem contact_dedup_full_record :
    (∀ (cs : List Contact) (c : Contact), c ∉ cs → addContact cs c = cs ++ [c]) ∧
    (∀ (cs : List Contact) (c : Contact), c ∈ cs → addContact cs c = cs) ∧
    (parse_community_data [dupSlide1, dupSlide2]).contacts =
      [{ email := "jane@x.com", name := some "Jane Smith", title := none },
       { email := "jane@x.com", name := some "Mary Jones", title := none }] := by
  refine ⟨?_, ?_, ?_⟩
  · intro cs c h
    unfold addContact
    rw [if_neg]
    simpa [List.contains, List.elem_iff] using h
  · intro cs c h
    unfold addContact
    rw [if_pos]
    simpa [List.contains, List.elem_iff] using h
  · decide

/-- C3 witness: the dedup test applied at concrete records. -/
theorem contact_dedup_witness :
    addContact [] contactW = [] ++ [contactW] ∧ addContact [contactW] contactW = [contactW] :=
  ⟨contact_dedup_full_record.1 [] contactW (by simp),
   contact_dedup_full_record.2.1 [contactW] contactW (by simp)⟩

/-! ## Organization-name rule (C4) -/

theorem ruleContacts_name (s : Slide) (c : Community) : (ruleContacts s c).name = c.name := rfl

theorem ruleTeam_name (s : Slide) (c : Community) : (ruleTeam s c).name = c.name := by
  unfold ruleTeam
  dsimp only
  split <;> rfl

theorem ruleGoals_name (s : Slide) (c : Community) : (ruleGoals s c).name = c.name := by
  unfold ruleGoals
  split <;> rfl

theorem ruleEngagement_name (s : Slide) (c : Community) : (ruleEngagement s c).name = c.name := by
  unfold ruleEngagement
  dsimp only
  split
  · split <;> split <;> rfl
  · rfl

theorem ruleMarket_name (s : Slide) (c : Community) : (ruleMarket s c).name = c.name := by
  unfold ruleMarket
  dsimp only
  split <;> rfl

theorem devClassify_name (c : Community) (item : String) : (devClassify c item).name = c.name := by
  unfold devClassify
  split
  · rfl
  · split
    · rfl
    · split <;> rfl

theorem ruleDevelopment_name (s : Slide) (c : Community) : (ruleDevelopment s c).name = c.name := by
  unfold ruleDevelopment
  dsimp only
  split
  · exact foldl_invar (fun c => c.name) devClassify devClassify_name s.content c
  · rfl

theorem ruleDates_name (s : Slide) (c : Community) : (ruleDates s c).name = c.name := rfl

theorem ruleNextSteps_name (s : Slide) (c : Community) : (ruleNextSteps s c).name = c.name := by
  unfold ruleNextSteps
  split <;> rfl

theorem ruleName_skip (s : Slide) (c : Community) (h : s.number ≠ 1) : ruleName s c = c := by
  unfold ruleName
  rw [if_neg h]

/-- C4: the organization-name rule fires only on slide number 1 — a
slide with any other number leaves the mined name unchanged — and on
slide #1 titled "Reference Guide: Oak Hill Village" with no other
name-bearing content the mined name is exactly "Oak Hill Village"
(prefix stripped, first match, trimmed). -/
theorem org_name_rule :
    (∀ (s : Slide) (c : Community) (t : String),
       s.number ≠ 1 → ((processSlide (c, t) s).1).name = c.name) ∧
    (parse_community_data [oakSlide]).name = "Oak Hill Village" := by
  constructor
  · intro s c t h
    unfold processSlide
    dsimp only
    rw [ruleNextSteps_name, ruleDates_name, ruleDevelopment_name, ruleMarket_name,
        ruleEngagement_name, ruleGoals_name, ruleTeam_name, ruleContacts_name,
        ruleName_skip _ _ h]
  · decide

/-- C4 witness: a slide numbered 2 leaves the name unchanged. -/
theorem org_name_rule_witness :
    ((processSlide (initCommunity, "") slideTwo).1).name = initCommunity.name :=
  org_name_rule.1 slideTwo initCommunity "" (by decide)

/-! ## Team-roster rule (C5) -/

/-- C5 counterexample: for the segment "Jane & Bob: Leads" the code
appends name "Jane", not the full matched name "Jane & Bob" — the
second capitalized word after "&" is matched but not captured. -/
theorem team_rule_counterexample :
    (parse_community_data [ampSlide]).one_point_team = [{ name := "Jane", role := "Leads" }] ∧
    (parse_community_data [ampSlide]).one_point_team ≠ [{ name := "Jane & Bob", role := "Leads" }] := by
  decide

/-- C5 (amended): when the slide title (space-stripped, lower-cased)
contains "onepoint" or (lower-cased) contains "team", the rule appends
one {name, role} entry per regex segment of the concatenated content,
in order of occurrence, where the stored name is only the first
capitalized word of the segment (an "& Word" continuation is matched
but not captured) and the role is the following text stripped. -/
theorem team_rule_amended :
    (∀ (s : Slide) (c : Community),
       (strContains (pyLower (stripSpaces (pyLower s.title))) "onepoint"
          || strContains (pyLower s.title) "team") = true →
       (ruleTeam s c).one_point_team =
         c.one_point_team ++
           (reFindAll2 teamRe (String.intercalate " " s.content)).map
             (fun nr => { name := pyStrip nr.1, role := pyStrip nr.2 })) ∧
    (parse_community_data [teamSlide]).one_point_team =
      [{ name := "Alice", role := "Director" }, { name := "Bob", role := "Advisor" }] := by
  constructor
  · intro s c h
    unfold ruleTeam
    dsimp only
    rw [if_pos h]
  · decide

/-- C5 witness: the roster characterization applied at a concrete slide. -/
theorem team_rule_witness :
    (ruleTeam teamSlide initCommunity).one_point_team =
      initCommunity.one_point_team ++
        (reFindAll2 teamRe (String.intercalate " " teamSlide.content)).map
          (fun nr => { name := pyStrip nr.1, role := pyStrip nr.2 }) :=
  team_rule_amended.1 teamSlide initCommunity (by decide)

/-! ## Contact resolution in the sync (C8) -/

/-- C8: as long as the person searches succeed, the contacts loop never
aborts, and its outcome decomposes contact by contact: every contact
with a non-empty email gets exactly one person search; a found contact
is recorded as updated with no further call (there is no person-update
call at all — the trace holds only the search); an unfound contact gets
one create call whose payload links `companyId = cid`; a failed
creation contributes exactly one error message and leaves the
processing of all other contacts untouched. -/
theorem contacts_loop_characterization (crm : CRM) (cid : String) :
    ∀ contacts : List Contact,
      (∀ c ∈ contacts, c.email ≠ "" → ∃ ps, crm.search_people c.email = Except.ok ps) →
      contactsLoop crm cid contacts =
        ((contacts.filter (fun c => !(c.email == "") && personFound crm c)).map
           (fun c => (c.email, c.name.getD "")),
         (contacts.filter
            (fun c => !(c.email == "") && !personFound crm c && personCreateOk crm cid c)).map
           (fun c => (c.email, c.name.getD "")),
         contacts.filterMap
           (fun c =>
             if !(c.email == "") && !personFound crm c then personCreateErr crm cid c else none),
         contacts.flatMap
           (fun c =>
             if c.email == "" then []
             else
               Call.search_people c.email ::
                 (if personFound crm c then [] else [Call.create_person (personPayloadOf cid c)])),
         true) := by
  intro contacts
  induction contacts with
  | nil => intro _; rfl
  | cons c rest ih =>
    intro h
    have hrest := ih (fun x hx hne => h x (List.mem_cons_of_mem _ hx) hne)
    by_cases he : c.email = ""
    · simp only [contactsLoop, if_pos he, hrest]
      simp [he]
    · obtain ⟨ps, hps⟩ := h c (List.mem_cons_self c rest) he
      rcases ps with _ | ⟨p, pt⟩
      · cases hcp : crm.create_person (personPayloadOf cid c) with
        | error e =>
          simp only [contactsLoop, if_neg he, hps, hcp, hrest]
          simp [personFound, personCreateOk, personCreateErr, hps, hcp, he]
        | ok v =>
          simp only [contactsLoop, if_neg he, hps, hcp, hrest]
          simp [personFound, personCreateOk, personCreateErr, hps, hcp, he]
      · simp only [contactsLoop, if_neg he, hps, hrest]
        simp [personFound, hps, he]

/-- C8 witness: the characterization applied to a concrete oracle and
contact list (one found contact, one empty email, one failing creation,
one successful creation). -/
theorem contacts_loop_witness :
    contactsLoop crmW "org1" contactsW =
      ([("found@x.com", "F G")], [("new@x.com", "N P")],
       ["Failed to create bad@x.com: boom"],
       [Call.search_people "found@x.com", Call.search_people "bad@x.com",
        Call.create_person { email := "bad@x.com", name := "B C", jobTitle := "", companyId := "org1" },
        Call.search_people "new@x.com",
        Call.create_person { email := "new@x.com", name := "N P", jobTitle := "CEO", companyId := "org1" }],
       true) :=
  (contacts_loop_characterization crmW "org1" contactsW (fun c _ _ => ⟨_, rfl⟩)).trans (by decide)

/-! ## Organization resolution in the sync (C7) -/

/-- What happens after the company step, for any obtained id: the
recorded company action survives to the final results; the step-1 trace
is preserved; and a falsy id short-circuits with the error appended and
no further calls. -/
theorem afterCompany_cases (cd : Community) (crm : CRM) (now : String) (cid : Option String)
    (act : String) (t1 : List Call) :
    (∀ r, (afterCompany cd crm now cid
             { emptyResults with company := some (cid, act) } t1).1 = some r →
        r.company = some (cid, act)) ∧
    (∀ call, call ∈ t1 →
        call ∈ (afterCompany cd crm now cid
                  { emptyResults with company := some (cid, act) } t1).2) ∧
    (pyFalsyOptStr cid = true →
        afterCompany cd crm now cid { emptyResults with company := some (cid, act) } t1 =
          (some { company := some (cid, act), contacts_created := [], contacts_updated := [],
                  notes_created := [], errors := ["Failed to create/find company"] }, t1)) := by
  unfold afterCompany
  by_cases hf : pyFalsyOptStr cid = true
  · rw [if_pos hf]
    refine ⟨?_, ?_, fun _ => rfl⟩
    · intro r hr
      simp only [Option.some.injEq] at hr
      subst hr
      rfl
    · intro call hc
      exact hc
  · rw [if_neg hf]
    dsimp only
    rcases hcl : contactsLoop crm (cid.getD "") cd.contacts with ⟨u, cr, er, tr, ok⟩
    dsimp only
    by_cases hok : ok = false
    · rw [if_pos hok]
      refine ⟨?_, ?_, fun hfal => absurd hfal hf⟩
      · intro r hr
        exact absurd hr (by simp)
      · intro call hc
        simp [hc]
    · rw [if_neg hok]
      refine ⟨?_, ?_, fun hfal => absurd hfal hf⟩
      · intro r hr
        simp only [Option.some.injEq] at hr
        subst hr
        rfl
      · intro call hc
        simp [hc]

/-- C7: organization resolution — a non-empty company search leads to an
update call on the first match (whose payload carries the mined address)
and `action = "updated"` with that company id; an empty search leads
to a create call and `action = "created"`; and when the obtained id is
falsy (None or empty) the error is appended and the function returns at
once, with no contact or note calls issued. -/
theorem org_resolution (cd : Community) (crm : CRM) (now : String) :
    (∀ first rest comp,
       crm.search_companies cd.name = Except.ok (first :: rest) →
       crm.update_company first.id (companyPayloadOf cd) = Except.ok comp →
       Call.update_company first.id (companyPayloadOf cd) ∈
           (sync_community_to_twenty cd crm false now).2 ∧
       (∀ r, (sync_community_to_twenty cd crm false now).1 = some r →
          r.company = some (first.id, "updated")) ∧
       (pyFalsyOptStr first.id = true →
          sync_community_to_twenty cd crm false now =
            (some { company := some (first.id, "updated"), contacts_created := [],
                    contacts_updated := [], notes_created := [],
                    errors := ["Failed to create/find company"] },
             [Call.search_companies cd.name,
              Call.update_company first.id (companyPayloadOf cd)]))) ∧
    (∀ comp,
       crm.search_companies cd.name = Except.ok [] →
       crm.create_company (companyPayloadOf cd) = Except.ok comp →
       Call.create_company (companyPayloadOf cd) ∈
           (sync_community_to_twenty cd crm false now).2 ∧
       (∀ r, (sync_community_to_twenty cd crm false now).1 = some r →
          r.company = some (comp.id, "created")) ∧
       (pyFalsyOptStr comp.id = true →
          sync_community_to_twenty cd crm false now =
            (some { company := some (comp.id, "created"), contacts_created := [],
                    contacts_updated := [], notes_created := [],
                    errors := ["Failed to create/find company"] },
             [Call.search_companies cd.name,
              Call.create_company (companyPayloadOf cd)]))) := by
  constructor
  · intro first rest comp h1 h2
    have hrun : sync_community_to_twenty cd crm false now =
        afterCompany cd crm now first.id
          { emptyResults with company := some (first.id, "updated") }
          ([Call.search_companies cd.name] ++
            [Call.update_company first.id (companyPayloadOf cd)]) := by
      simp [sync_community_to_twenty, h1, h2]
    have hc := afterCompany_cases cd crm now first.id "updated"
      ([Call.search_companies cd.name] ++ [Call.update_company first.id (companyPayloadOf cd)])
    rw [hrun]
    exact ⟨hc.2.1 _ (by simp), hc.1, hc.2.2⟩
  · intro comp h1 h2
    have hrun : sync_community_to_twenty cd crm false now =
        afterCompany cd crm now comp.id
          { emptyResults with company := some (comp.id, "created") }
          ([Call.search_companies cd.name] ++
            [Call.create_company (companyPayloadOf cd)]) := by
      simp [sync_community_to_twenty, h1, h2]
    have hc := afterCompany_cases cd crm now comp.id "created"
      ([Call.search_companies cd.name] ++ [Call.create_company (companyPayloadOf cd)])
    rw [hrun]
    exact ⟨hc.2.1 _ (by simp), hc.1, hc.2.2⟩

/-- C7 witness: the update scenario on a finding oracle, and the
falsy-id early return on an oracle whose found company has an empty id. -/
theorem org_resolution_witness :
    Call.update_company (some "c1") (companyPayloadOf cdW) ∈
        (sync_community_to_twenty cdW crmW false "TS").2 ∧
    sync_community_to_twenty cdW crmFalsy false "TS" =
      (some { company := some (some "", "updated"), contacts_created := [],
              contacts_updated := [], notes_created := [],
              errors := ["Failed to create/find company"] },
       [Call.search_companies cdW.name,
        Call.update_company (some "") (companyPayloadOf cdW)]) :=
  ⟨((org_resolution cdW crmW "TS").1 ⟨some "c1"⟩ [] ⟨some "c1"⟩ rfl rfl).1,
   (((org_resolution cdW crmFalsy "TS").1 ⟨some ""⟩ [] ⟨some "c1"⟩ rfl rfl).2.2) rfl⟩

end Moltbot
